import Mathlib

/-!
Verification of the query / ranking / aggregation engine of the zonal-value
catalog backend (`backend/app/crud.py`, with `config.py`,
`routers/zonal_values.py` and `models.py` for the export route).

The SQL statements built in `crud.py` are embedded shallowly: a table is a
`List ZonalValue`, SQL conditions become `Bool`-valued functions on rows
(conditions that contain an `EXISTS` subquery also receive the table), and
`LIKE` is given an executable semantics (`likeRaw` for SQLite's escape-free
`LIKE`, `likeEsc` for `LIKE ... ESCAPE '\'`, which is also the Postgres
default).  `Decimal` / `Numeric(18, 2)` values are embedded as `ℚ`, whose
arithmetic is exact, matching Python's `decimal.Decimal` on the operations
the code performs.  Text matching works on `List Char`; lowercasing uses
`Char.toLower`, which like Python's `str.lower` and SQL `lower` maps
`A`-`Z` to `a`-`z` (the embedding restricts attention to ASCII case).
-/

/-- One row of the `zonal_values` table (`models.py`).  Only the columns the
queries in `crud.py` touch are kept.  All text columns are `Option String`
because the SQL conditions treat them as nullable (`models.py` marks
`dataset_version` non-nullable, but every query wraps it in `coalesce`, so
the embedding keeps the column nullable and lets `coalesce` do its work). -/
structure ZonalValue where
  id : Nat
  rdo_code : Option String := none
  region : Option String := none
  province : Option String := none
  city_municipality : Option String := none
  barangay : Option String := none
  street_subdivision : Option String := none
  property_class : Option String := none
  property_type : Option String := none
  zonal_value : Option ℚ := none
  dataset_version : Option String := none
deriving DecidableEq, Repr

/-- Lowercasing of a character list (`lower(...)` in SQL, `str.lower` in
Python, restricted to ASCII). -/
def lowerChars (l : List Char) : List Char := l.map Char.toLower

/-- Python `str.strip()`: drop leading and trailing whitespace. -/
def stripChars (l : List Char) : List Char :=
  ((l.dropWhile Char.isWhitespace).reverse.dropWhile Char.isWhitespace).reverse

/-- SQL `trim(...)`: drop leading and trailing space characters. -/
def sqlTrimChars (l : List Char) : List Char :=
  ((l.dropWhile (fun c => c = ' ')).reverse.dropWhile (fun c => c = ' ')).reverse

/-- SQL `coalesce(col, '')`. -/
def coalesceStr (o : Option String) : String := o.getD ""

/-- `_normalize_token` in `crud.py`: `(value or "").strip()`. -/
def normalize_token (v : Option String) : List Char := stripChars (coalesceStr v).data

/-- `_normalized_text` in `crud.py`: `lower(trim(coalesce(column, '')))`. -/
def normalized_text (col : Option String) : List Char :=
  lowerChars (sqlTrimChars (coalesceStr col).data)

/-- SQL `LIKE` without an `ESCAPE` clause (SQLite's default): `%` matches any
sequence of characters (some suffix of the text is matched by the rest of
the pattern), `_` any one character, every other character — including a
backslash — matches itself. -/
def likeRaw : List Char → List Char → Bool
  | [], t => t.isEmpty
  | c :: p, t =>
    if c = '%' then t.tails.any (likeRaw p)
    else if c = '_' then
      (match t with | [] => false | _ :: t2 => likeRaw p t2)
    else
      (match t with | [] => false | d :: t2 => (d = c) && likeRaw p t2)

/-- SQL `LIKE ... ESCAPE '\'` (what SQLAlchemy emits for
`.like(pattern, escape="\\")`, and the Postgres default for `LIKE`/`ILIKE`):
a backslash makes the following character match literally. -/
def likeEsc : List Char → List Char → Bool
  | [], t => t.isEmpty
  | c :: p, t =>
    if c = '\\' then
      (match p, t with
       | e :: p2, d :: t2 => (d = e) && likeEsc p2 t2
       | _, _ => false)
    else if c = '%' then t.tails.any (likeEsc p)
    else if c = '_' then
      (match t with | [] => false | _ :: t2 => likeEsc p t2)
    else
      (match t with | [] => false | d :: t2 => (d = c) && likeEsc p t2)

/-- The escaping inside `_like_pattern` in `crud.py`:
`value.replace("\\", "\\\\").replace("%", "\\%").replace("_", "\\_")`.
The three sequential replacements amount to prefixing each metacharacter
with a backslash. -/
def escape_like : List Char → List Char
  | [] => []
  | c :: rest =>
    if c = '\\' || c = '%' || c = '_' then '\\' :: c :: escape_like rest
    else c :: escape_like rest

/-- `_like_pattern` in `crud.py`: `f"%{escaped}%"`. -/
def like_pattern (v : List Char) : List Char := '%' :: (escape_like v ++ ['%'])

/-- Characters that are neither the escape character nor a LIKE wildcard. -/
def plainChar (c : Char) : Prop := c ≠ '\\' ∧ c ≠ '%' ∧ c ≠ '_'

instance (c : Char) : Decidable (plainChar c) := by
  unfold plainChar
  infer_instance

/-- SQLAlchemy `col.ilike(pattern)`: `NULL` never matches; both sides are
lowercased; on Postgres (`pg = true`) the backslash is an escape character,
on SQLite it is not. -/
def sql_ilike (pg : Bool) (col : Option String) (pattern : List Char) : Bool :=
  match col with
  | none => false
  | some s => (if pg then likeEsc else likeRaw) (lowerChars pattern) (lowerChars s.data)

/-- `_is_catch_all_street` in `crud.py`:
`_normalized_text(column).like("%all other street%")` (the pattern contains
no backslash, so the presence of an escape clause is immaterial). -/
def is_catch_all_street (col : Option String) : Bool :=
  likeRaw ("%all other street%".data) (normalized_text col)


/-- The normalized street query inside `_street_priority_components`:
`_normalize_token(street_query).lower()`. -/
def street_query_norm (q : String) : List Char := lowerChars (stripChars q.data)

/-- `exact_match_condition` in `_street_priority_components`:
`street_column == normalized_street_query`. -/
def exact_match_condition (qn : List Char) (r : ZonalValue) : Bool :=
  normalized_text r.street_subdivision = qn

/-- `contains_condition` in `_street_priority_components`:
`street_column.like(_like_pattern(q), escape="\\")`. -/
def contains_condition (qn : List Char) (r : ZonalValue) : Bool :=
  likeEsc (like_pattern qn) (normalized_text r.street_subdivision)

/-- `named_match_condition`: contains the query and is not a catch-all. -/
def named_match_condition (qn : List Char) (r : ZonalValue) : Bool :=
  contains_condition qn r && !is_catch_all_street r.street_subdivision

/-- `same_scope_condition`: the five `coalesce(x, '') == coalesce(y, '')`
comparisons between the peer row and the outer row. -/
def same_scope_condition (peer r : ZonalValue) : Bool :=
  coalesceStr peer.province = coalesceStr r.province &&
  coalesceStr peer.city_municipality = coalesceStr r.city_municipality &&
  coalesceStr peer.barangay = coalesceStr r.barangay &&
  coalesceStr peer.property_class = coalesceStr r.property_class &&
  coalesceStr peer.dataset_version = coalesceStr r.dataset_version

/-- `named_peer_exists`: the `EXISTS` subquery over the whole table (the
aliased peer table is not restricted by the outer filters, and does not
exclude the row itself). -/
def named_peer_exists (tbl : List ZonalValue) (qn : List Char) (r : ZonalValue) : Bool :=
  tbl.any fun peer =>
    same_scope_condition peer r && contains_condition qn peer &&
    !is_catch_all_street peer.street_subdivision

/-- `catch_all_fallback_condition`. -/
def catch_all_fallback_condition (tbl : List ZonalValue) (qn : List Char) (r : ZonalValue) : Bool :=
  is_catch_all_street r.street_subdivision && !named_peer_exists tbl qn r

/-- `inclusion_condition`: the disjunction of the three street ranks. -/
def street_inclusion_condition (tbl : List ZonalValue) (qn : List Char) (r : ZonalValue) : Bool :=
  exact_match_condition qn r || named_match_condition qn r ||
  catch_all_fallback_condition tbl qn r

/-- `rank_expression`: the `CASE` expression assigning rank 0 / 1 / 2 / 3. -/
def street_rank (tbl : List ZonalValue) (qn : List Char) (r : ZonalValue) : Nat :=
  if exact_match_condition qn r then 0
  else if named_match_condition qn r then 1
  else if catch_all_fallback_condition tbl qn r then 2
  else 3

/-- Text rendering of a `Numeric(18, 2)` value, for
`cast(ZonalValue.zonal_value, String)` in the search blob.  Monetary values
are non-negative multiples of 1/100 in this dataset; the embedding renders
them with two decimal places (the two real backends render slightly
different text here; no claim depends on the exact rendering). -/
def decimalText (q : ℚ) : String :=
  let cents : Int := q.num * 100 / (q.den : Int)
  let whole : Int := cents / 100
  let frac : Nat := (cents % 100).natAbs
  toString whole ++ "." ++ (if frac < 10 then "0" else "") ++ toString frac

/-- `cast(ZonalValue.zonal_value, String)`: `NULL` stays `NULL`. -/
def zonal_value_text (r : ZonalValue) : Option String := r.zonal_value.map decimalText

/-- `_search_blob` in `crud.py`: the ten searchable fields, `coalesce`d to
the empty string and joined by single spaces. -/
def search_blob (r : ZonalValue) : String :=
  coalesceStr r.rdo_code ++ " " ++ coalesceStr r.region ++ " " ++
  coalesceStr r.province ++ " " ++ coalesceStr r.city_municipality ++ " " ++
  coalesceStr r.barangay ++ " " ++ coalesceStr r.street_subdivision ++ " " ++
  coalesceStr r.property_class ++ " " ++ coalesceStr r.property_type ++ " " ++
  coalesceStr r.dataset_version ++ " " ++ coalesceStr (zonal_value_text r)

/-- The `searchable_cols` list in the SQLite branch of `_apply_conditions`. -/
def searchable_cols (r : ZonalValue) : List (Option String) :=
  [r.rdo_code, r.region, r.province, r.city_municipality, r.barangay,
   r.street_subdivision, r.property_class, r.property_type,
   r.dataset_version, zonal_value_text r]

/-- Tokenization of the Postgres `simple` text-search configuration.
Modelled from the spec (§4.2): the `to_tsvector("simple", ...)` /
`websearch_to_tsquery("simple", ...)` builtins live in the database, not in
this repository; the spec describes them as word-boundary matching over the
blob.  `simple` splits on non-alphanumeric characters and lowercases. -/
def simple_tokens (l : List Char) : List (List Char) :=
  (List.splitOnP (fun c => !c.isAlphanum) (lowerChars l)).filter (fun w => !w.isEmpty)

/-- Modelled from the spec (§4.2): `to_tsvector("simple", blob) @@
websearch_to_tsquery("simple", term)` — every token of the term must occur
as a token of the blob; a term with no tokens matches nothing. -/
def ts_match (term : List Char) (blob : List Char) : Bool :=
  let toks := simple_tokens term
  !toks.isEmpty && toks.all (fun tok => (simple_tokens blob).contains tok)

/-- Python truthiness of an optional string parameter (`if search:`):
`None` and the empty string are falsy. -/
def truthy : Option String → Bool
  | none => false
  | some s => !s.isEmpty

/-- The `search` condition of `_apply_conditions`.  On Postgres
(`pg = true`): full-text match OR `ILIKE` on the blob; on SQLite: `ILIKE`
on each searchable column.  In both branches the pattern is
`f"%{normalized_search}%"` — note: no wildcard escaping. -/
def search_condition (pg : Bool) (search : Option String) (r : ZonalValue) : Bool :=
  if truthy search then
    let ns := normalize_token search
    if ns.isEmpty then true
    else
      let pattern := '%' :: (ns ++ ['%'])
      if pg then
        ts_match ns (search_blob r).data ||
        sql_ilike true (some (search_blob r)) pattern
      else
        (searchable_cols r).any (fun col => sql_ilike false col pattern)
  else true

/-- A `col.ilike(f"%{_normalize_token(value)}%")` filter
(region / province / city / barangay / property_class / property_type). -/
def ilike_filter (pg : Bool) (col : Option String) (value : String) : Bool :=
  sql_ilike pg col ('%' :: (stripChars value.data ++ ['%']))

/-- The `dataset_version == _normalize_token(value)` condition: SQL `=` on a
`NULL` column is not a match. -/
def dataset_version_condition (col : Option String) (value : String) : Bool :=
  match col with
  | none => false
  | some s => s.data = stripChars value.data

/-- `ZonalValue.zonal_value >= min_value` (`NULL` is not a match). -/
def min_value_condition (v : Option ℚ) (bound : ℚ) : Bool :=
  match v with
  | none => false
  | some x => bound ≤ x

/-- `ZonalValue.zonal_value <= max_value` (`NULL` is not a match). -/
def max_value_condition (v : Option ℚ) (bound : ℚ) : Bool :=
  match v with
  | none => false
  | some x => x ≤ bound

/-- The filter parameters of `get_zonal_values` / `get_zonal_summary` /
`get_zonal_values_for_export`. -/
structure Filters where
  search : Option String := none
  region : Option String := none
  province : Option String := none
  city : Option String := none
  barangay : Option String := none
  property_class : Option String := none
  property_type : Option String := none
  dataset_version : Option String := none
  min_value : Option ℚ := none
  max_value : Option ℚ := none
  street : Option String := none
deriving Repr

/-- The street condition contributed by `_apply_conditions`: skipped when the
parameter is falsy or normalizes to the empty string (then
`_street_priority_components` returns `None` for all three components). -/
def street_condition (tbl : List ZonalValue) (street : Option String) (r : ZonalValue) : Bool :=
  if truthy street then
    let qn := street_query_norm (street.getD "")
    if qn.isEmpty then true else street_inclusion_condition tbl qn r
  else true

/-- The conjunction of conditions built by `_apply_conditions` — the `WHERE`
clause shared by the count query, the row query and the summary. -/
def row_condition (pg : Bool) (tbl : List ZonalValue) (f : Filters) (r : ZonalValue) : Bool :=
  search_condition pg f.search r &&
  (if truthy f.region then ilike_filter pg r.region (f.region.getD "") else true) &&
  (if truthy f.province then ilike_filter pg r.province (f.province.getD "") else true) &&
  (if truthy f.city then ilike_filter pg r.city_municipality (f.city.getD "") else true) &&
  (if truthy f.barangay then ilike_filter pg r.barangay (f.barangay.getD "") else true) &&
  (if truthy f.property_class then ilike_filter pg r.property_class (f.property_class.getD "") else true) &&
  (if truthy f.property_type then ilike_filter pg r.property_type (f.property_type.getD "") else true) &&
  (if truthy f.dataset_version then dataset_version_condition r.dataset_version (f.dataset_version.getD "") else true) &&
  (match f.min_value with | none => true | some b => min_value_condition r.zonal_value b) &&
  (match f.max_value with | none => true | some b => max_value_condition r.zonal_value b) &&
  street_condition tbl f.street r

/-- The `street_rank` ordering term: present only when the street parameter
is truthy and normalizes to a non-empty string. -/
def street_rank_opt (tbl : List ZonalValue) (f : Filters) (r : ZonalValue) : Option Nat :=
  if truthy f.street then
    let qn := street_query_norm (f.street.getD "")
    if qn.isEmpty then none else some (street_rank tbl qn r)
  else none

/-- Sort key of a nullable text column under `ASC NULLS LAST`: `NULL` maps
to the largest key. -/
def null_last_key (col : Option String) : Lex (Bool × List Char) :=
  match col with
  | none => toLex (true, [])
  | some s => toLex (false, s.data)

/-- The full `ORDER BY` key of `_ordered_stmt`: street rank (when present;
when absent the constant 0 is order-equivalent to omitting the term), then
region, province, city, barangay, property_class, street_subdivision
ascending with nulls last, then `id` as the final tie-break. -/
def sort_key (tbl : List ZonalValue) (f : Filters) (r : ZonalValue) :
    Lex (Nat × Lex ((Lex (Bool × List Char)) × Lex ((Lex (Bool × List Char)) ×
      Lex ((Lex (Bool × List Char)) × Lex ((Lex (Bool × List Char)) ×
      Lex ((Lex (Bool × List Char)) × Lex ((Lex (Bool × List Char)) × Nat))))))) :=
  toLex ((street_rank_opt tbl f r).getD 0,
    toLex (null_last_key r.region,
      toLex (null_last_key r.province,
        toLex (null_last_key r.city_municipality,
          toLex (null_last_key r.barangay,
            toLex (null_last_key r.property_class,
              toLex (null_last_key r.street_subdivision, r.id)))))))

/-- The `ORDER BY` relation of `_ordered_stmt`. -/
def row_order (tbl : List ZonalValue) (f : Filters) : ZonalValue → ZonalValue → Prop :=
  fun a b => sort_key tbl f a ≤ sort_key tbl f b

instance (tbl : List ZonalValue) (f : Filters) : DecidableRel (row_order tbl f) :=
  fun a b => inferInstanceAs (Decidable (sort_key tbl f a ≤ sort_key tbl f b))

instance (tbl : List ZonalValue) (f : Filters) : IsTotal ZonalValue (row_order tbl f) :=
  ⟨fun a b => le_total (sort_key tbl f a) (sort_key tbl f b)⟩

instance (tbl : List ZonalValue) (f : Filters) : IsTrans ZonalValue (row_order tbl f) :=
  ⟨fun _ _ _ h h2 => le_trans h h2⟩

/-- The filtered row set (the subquery both the count query and the row
query are built from). -/
def filtered_rows (pg : Bool) (tbl : List ZonalValue) (f : Filters) : List ZonalValue :=
  tbl.filter (row_condition pg tbl f)

/-- The filtered rows in `ORDER BY` order — the full (unpaginated) result
sequence of both the list and the export query. -/
def ordered_rows (pg : Bool) (tbl : List ZonalValue) (f : Filters) : List ZonalValue :=
  List.insertionSort (row_order tbl f) (filtered_rows pg tbl f)

/-- `get_zonal_values` in `crud.py`: the page of rows
(`OFFSET (page-1)*page_size LIMIT page_size` over the ordered query) and the
total count over the same predicate. -/
def get_zonal_values (pg : Bool) (tbl : List ZonalValue) (f : Filters)
    (page page_size : Nat) : List ZonalValue × Nat :=
  (((ordered_rows pg tbl f).drop ((page - 1) * page_size)).take page_size,
   (filtered_rows pg tbl f).length)

/-- `get_zonal_values_for_export` in `crud.py`: same predicate and ordering,
a single `LIMIT`, and the true total. -/
def get_zonal_values_for_export (pg : Bool) (tbl : List ZonalValue) (f : Filters)
    (limit : Nat) : List ZonalValue × Nat :=
  ((ordered_rows pg tbl f).take limit, (filtered_rows pg tbl f).length)

/-- Ascending order on the non-null `zonal_value`s of a row set (the
`ORDER BY zonal_value ASC` over the `IS NOT NULL` rows that both median
queries use). -/
def sorted_zonal_values (filtered : List ZonalValue) : List ℚ :=
  List.insertionSort (fun a b : ℚ => a ≤ b) (filtered.filterMap ZonalValue.zonal_value)

/-- `_sqlite_median_from_subquery` in `crud.py`: count the non-null values;
odd count → `OFFSET n//2 LIMIT 1`; even count → `OFFSET n//2-1 LIMIT 2` and
the exact decimal mean of the pair (with the code's defensive fallback when
the pair query returns fewer than two rows). -/
def sqlite_median (filtered : List ZonalValue) : Option ℚ :=
  let non_null_count := (filtered.filterMap ZonalValue.zonal_value).length
  if non_null_count = 0 then none
  else if non_null_count % 2 = 1 then
    ((sorted_zonal_values filtered).drop (non_null_count / 2)).head?
  else
    match ((sorted_zonal_values filtered).drop (non_null_count / 2 - 1)).take 2 with
    | [a, b] => some ((a + b) / 2)
    | [a] => some a
    | _ => none

/-- Modelled from the spec (§4.5): the FullTextCapable backend's
`percentile_cont(0.5)` aggregate is a database builtin, not code in this
repository; the spec calls it the native continuous-percentile aggregate at
the 0.5 quantile.  It is embedded over `ℚ` by linear interpolation (the
real aggregate computes in floating point). -/
def percentile_cont_median (filtered : List ZonalValue) : Option ℚ :=
  let n := (filtered.filterMap ZonalValue.zonal_value).length
  if n = 0 then none
  else if n % 2 = 1 then (sorted_zonal_values filtered)[n / 2]?
  else
    match (sorted_zonal_values filtered)[n / 2 - 1]?, (sorted_zonal_values filtered)[n / 2]? with
    | some a, some b => some ((a + b) / 2)
    | _, _ => none

/-- The summary payload of `get_zonal_summary` (the `class_mix` list is
omitted: no claim concerns it). -/
structure ZonalSummary where
  total_records : Nat
  min_value : Option ℚ
  max_value : Option ℚ
  median_value : Option ℚ
  catch_all_records : Nat
  exact_street_records : Nat
deriving Repr

/-- `get_zonal_summary` in `crud.py`.  All aggregates run over
`filtered_subquery`, the subquery of the statement `_apply_conditions`
produced — including its street inclusion condition.  `exact_street_records`
re-runs `_apply_conditions` and adds the exact-match condition; it is 0 when
no usable street term was supplied. -/
def get_zonal_summary (pg : Bool) (tbl : List ZonalValue) (f : Filters) : ZonalSummary :=
  let filtered := filtered_rows pg tbl f
  { total_records := filtered.length
    min_value := (filtered.filterMap ZonalValue.zonal_value).min?
    max_value := (filtered.filterMap ZonalValue.zonal_value).max?
    median_value := if pg then percentile_cont_median filtered else sqlite_median filtered
    catch_all_records :=
      (filtered.filter (fun r => is_catch_all_street r.street_subdivision)).length
    exact_street_records :=
      if truthy f.street then
        let qn := street_query_norm (f.street.getD "")
        if qn.isEmpty then 0
        else (tbl.filter (fun r => row_condition pg tbl f r && exact_match_condition qn r)).length
      else 0 }

/-- The `Settings` object of `config.py` (the fields relevant here;
`cors_origins` elided). -/
structure Settings where
  app_name : String := "ZonalHub API"
  api_prefix : String := "/api/v1"
  database_url : String := "sqlite:///./zonalhub.db"
  default_page_size : Nat := 25
  max_page_size : Nat := 200
deriving Repr

/-- Python attribute lookup of an integer-valued field on the settings
object: `default_page_size` and `max_page_size` are the only integer fields
`Settings` declares in `config.py`; any other name raises `AttributeError`
(pydantic's `extra="ignore"` discards unknown environment values instead of
storing them as attributes). -/
def settings_getattr_nat (s : Settings) (name : String) : Except String Nat :=
  if name = "default_page_size" then Except.ok s.default_page_size
  else if name = "max_page_size" then Except.ok s.max_page_size
  else Except.error ("AttributeError: " ++ name)

/-- The truncation metadata and rows of the `/export` route's response
(`X-Export-Truncated`, `X-Export-Row-Limit`, `X-Export-Total-Matches`). -/
structure ExportResponse where
  rows : List ZonalValue
  truncated : Bool
  row_limit : Option Nat
  total_matches : Option Nat
deriving Repr

/-- The `/export` route (`routers/zonal_values.py`): it evaluates
`settings.export_max_rows` to pass as the limit, calls
`get_zonal_values_for_export`, and sets the truncation headers when
`total > limit`. -/
def export_endpoint (pg : Bool) (tbl : List ZonalValue) (f : Filters) :
    Except String ExportResponse :=
  (settings_getattr_nat {} "export_max_rows").map fun limit =>
    let result := get_zonal_values_for_export pg tbl f limit
    { rows := result.1
      truncated := result.2 > limit
      row_limit := if result.2 > limit then some limit else none
      total_matches := if result.2 > limit then some result.2 else none }

def wit_main : ZonalValue :=
  { id := 1, region := some "Region A", province := some "CEBU",
    city_municipality := some "CEBU CITY", barangay := some "Lahug",
    street_subdivision := some "Main St.", property_class := some "RES",
    zonal_value := some 1500, dataset_version := some "2024" }

def wit_catch : ZonalValue :=
  { id := 2, region := some "Region A", province := some "CEBU",
    city_municipality := some "CEBU CITY", barangay := some "Lahug",
    street_subdivision := some "All Other Streets", property_class := some "RES",
    zonal_value := some 1000, dataset_version := some "2024" }

def wit_tbl : List ZonalValue := [wit_main, wit_catch]

def wit_street_filters : Filters := { street := some "Main St." }

def wit_null_scope : ZonalValue := { id := 8 }

def wit_empty_scope : ZonalValue :=
  { id := 9, province := some "", city_municipality := some "",
    barangay := some "", property_class := some "", dataset_version := some "" }

def med_row (i : Nat) (v : ℚ) : ZonalValue := { id := i, zonal_value := some v }

def wit_med3 : List ZonalValue := [med_row 1 30, med_row 2 10, med_row 3 20]

def wit_med4 : List ZonalValue := [med_row 1 30, med_row 2 10, med_row 3 40, med_row 4 20]

def wit_block50 : ZonalValue := { id := 3, street_subdivision := some "Block 50 Area" }

def wit_nullregion : ZonalValue := { id := 7 }

def wit_ncr : ZonalValue := { id := 10, region := some "NCR" }

def wit_crossfield : ZonalValue := { id := 4, rdo_code := some "A", region := some "B" }

/-! Theorems. -/

theorem likeEsc_nil_pat (t : List Char) : likeEsc [] t = t.isEmpty := by
  rw [likeEsc.eq_def]

theorem likeEsc_percent (p t : List Char) : likeEsc ('%' :: p) t = t.tails.any (likeEsc p) := by
  cases t <;> (rw [likeEsc.eq_def]; rfl)

theorem likeEsc_esc_nil (e : Char) (p : List Char) : likeEsc ('\\' :: e :: p) [] = false := by
  rw [likeEsc.eq_def]; rfl

theorem likeEsc_esc_cons (e : Char) (p : List Char) (d : Char) (t2 : List Char) :
    likeEsc ('\\' :: e :: p) (d :: t2) = ((d = e) && likeEsc p t2) := by
  rw [likeEsc.eq_def]; rfl

theorem likeEsc_lit_nil (c : Char) (h1 : c ≠ '\\') (h2 : c ≠ '%') (h3 : c ≠ '_')
    (p : List Char) : likeEsc (c :: p) [] = false := by
  rw [likeEsc.eq_def]; simp [h1, h2, h3]

theorem likeEsc_lit_cons (c : Char) (h1 : c ≠ '\\') (h2 : c ≠ '%') (h3 : c ≠ '_')
    (p : List Char) (d : Char) (t2 : List Char) :
    likeEsc (c :: p) (d :: t2) = ((d = c) && likeEsc p t2) := by
  rw [likeEsc.eq_def]; simp [h1, h2, h3]

theorem likeEsc_us_nil (p : List Char) : likeEsc ('_' :: p) [] = false := by
  rw [likeEsc.eq_def]; rfl

theorem likeEsc_us_cons (p : List Char) (d : Char) (t2 : List Char) :
    likeEsc ('_' :: p) (d :: t2) = likeEsc p t2 := by
  rw [likeEsc.eq_def]; rfl

theorem likeRaw_nil_pat (t : List Char) : likeRaw [] t = t.isEmpty := by
  rw [likeRaw.eq_def]

theorem likeRaw_percent (p t : List Char) : likeRaw ('%' :: p) t = t.tails.any (likeRaw p) := by
  cases t <;> (rw [likeRaw.eq_def]; rfl)

theorem likeRaw_lit_nil (c : Char) (h2 : c ≠ '%') (h3 : c ≠ '_') (p : List Char) :
    likeRaw (c :: p) [] = false := by
  rw [likeRaw.eq_def]; simp [h2, h3]

theorem likeRaw_lit_cons (c : Char) (h2 : c ≠ '%') (h3 : c ≠ '_')
    (p : List Char) (d : Char) (t2 : List Char) :
    likeRaw (c :: p) (d :: t2) = ((d = c) && likeRaw p t2) := by
  rw [likeRaw.eq_def]; simp [h2, h3]

theorem likeRaw_us_nil (p : List Char) : likeRaw ('_' :: p) [] = false := by
  rw [likeRaw.eq_def]; rfl

theorem likeRaw_us_cons (p : List Char) (d : Char) (t2 : List Char) :
    likeRaw ('_' :: p) (d :: t2) = likeRaw p t2 := by
  rw [likeRaw.eq_def]; rfl

theorem likeEsc_percent_iff (p t : List Char) :
    likeEsc ('%' :: p) t = true ↔ ∃ t2, t2 <:+ t ∧ likeEsc p t2 = true := by
  rw [likeEsc_percent]
  simp [List.any_eq_true, List.mem_tails]

theorem likeEsc_percent_nil (t : List Char) : likeEsc ['%'] t = true := by
  rw [likeEsc_percent_iff]
  exact ⟨[], List.nil_suffix, by rw [likeEsc_nil_pat]; rfl⟩

theorem likeEsc_escape_append (v p : List Char) :
    ∀ t, likeEsc (escape_like v ++ p) t = true ↔ ∃ t2, t = v ++ t2 ∧ likeEsc p t2 = true := by
  induction v with
  | nil =>
    intro t
    simp [escape_like]
  | cons c v ih =>
    intro t
    by_cases hc : c = '\\' ∨ c = '%' ∨ c = '_'
    · have hesc : escape_like (c :: v) = '\\' :: c :: escape_like v := by
        rcases hc with h | h | h <;> simp [escape_like, h]
      rw [hesc, List.cons_append, List.cons_append]
      cases t with
      | nil =>
        rw [likeEsc_esc_nil]
        simp
      | cons d t2 =>
        rw [likeEsc_esc_cons, Bool.and_eq_true, decide_eq_true_eq, ih t2]
        constructor
        · rintro ⟨rfl, t3, rfl, hm⟩
          exact ⟨t3, rfl, hm⟩
        · rintro ⟨t3, ht, hm⟩
          rw [List.cons_append, List.cons.injEq] at ht
          exact ⟨ht.1, t3, ht.2, hm⟩
    · push_neg at hc
      obtain ⟨h1, h2, h3⟩ := hc
      have hesc : escape_like (c :: v) = c :: escape_like v := by
        simp [escape_like, h1, h2, h3]
      rw [hesc, List.cons_append]
      cases t with
      | nil =>
        rw [likeEsc_lit_nil c h1 h2 h3]
        simp
      | cons d t2 =>
        rw [likeEsc_lit_cons c h1 h2 h3, Bool.and_eq_true, decide_eq_true_eq, ih t2]
        constructor
        · rintro ⟨rfl, t3, rfl, hm⟩
          exact ⟨t3, rfl, hm⟩
        · rintro ⟨t3, ht, hm⟩
          rw [List.cons_append, List.cons.injEq] at ht
          exact ⟨ht.1, t3, ht.2, hm⟩

theorem like_pattern_iff (v t : List Char) :
    likeEsc (like_pattern v) t = true ↔ v <:+: t := by
  rw [like_pattern, likeEsc_percent_iff]
  constructor
  · rintro ⟨t2, ⟨t1, rfl⟩, hm⟩
    rw [likeEsc_escape_append] at hm
    obtain ⟨t3, rfl, -⟩ := hm
    exact ⟨t1, t3, by simp⟩
  · rintro ⟨t1, t3, rfl⟩
    refine ⟨v ++ t3, ⟨t1, by simp⟩, ?_⟩
    rw [likeEsc_escape_append]
    exact ⟨t3, rfl, likeEsc_percent_nil t3⟩

theorem likeEsc_literal_append (v p : List Char) (hv : ∀ c ∈ v, plainChar c) :
    ∀ t, likeEsc (v ++ p) t = true ↔ ∃ t2, t = v ++ t2 ∧ likeEsc p t2 = true := by
  induction v with
  | nil =>
    intro t
    simp
  | cons c v ih =>
    intro t
    obtain ⟨h1, h2, h3⟩ : plainChar c := hv c (List.mem_cons_self c v)
    have hv2 : ∀ d ∈ v, plainChar d := fun d hd => hv d (List.mem_cons_of_mem c hd)
    rw [List.cons_append]
    cases t with
    | nil =>
      rw [likeEsc_lit_nil c h1 h2 h3]
      simp
    | cons d t2 =>
      rw [likeEsc_lit_cons c h1 h2 h3, Bool.and_eq_true, decide_eq_true_eq, ih hv2 t2]
      constructor
      · rintro ⟨rfl, t3, rfl, hm⟩
        exact ⟨t3, rfl, hm⟩
      · rintro ⟨t3, ht, hm⟩
        rw [List.cons_append, List.cons.injEq] at ht
        exact ⟨ht.1, t3, ht.2, hm⟩

theorem likeEsc_contains_iff (v t : List Char) (hv : ∀ c ∈ v, plainChar c) :
    likeEsc ('%' :: (v ++ ['%'])) t = true ↔ v <:+: t := by
  rw [likeEsc_percent_iff]
  constructor
  · rintro ⟨t2, ⟨t1, rfl⟩, hm⟩
    rw [likeEsc_literal_append v _ hv] at hm
    obtain ⟨t3, rfl, -⟩ := hm
    exact ⟨t1, t3, by simp⟩
  · rintro ⟨t1, t3, rfl⟩
    refine ⟨v ++ t3, ⟨t1, by simp⟩, ?_⟩
    rw [likeEsc_literal_append v _ hv]
    exact ⟨t3, rfl, likeEsc_percent_nil t3⟩

theorem likeRaw_eq_likeEsc : ∀ (p : List Char), '\\' ∉ p → ∀ t, likeRaw p t = likeEsc p t := by
  intro p
  induction p with
  | nil =>
    intro _ t
    rw [likeRaw_nil_pat, likeEsc_nil_pat]
  | cons c p ih =>
    intro hp t
    have hc : c ≠ '\\' := fun h => hp (h ▸ List.mem_cons_self c p)
    have hp2 : '\\' ∉ p := fun h => hp (List.mem_cons_of_mem c h)
    have hfun : likeRaw p = likeEsc p := funext (ih hp2)
    by_cases h2 : c = '%'
    · subst h2
      rw [likeRaw_percent, likeEsc_percent, hfun]
    · by_cases h3 : c = '_'
      · subst h3
        cases t with
        | nil => rw [likeRaw_us_nil, likeEsc_us_nil]
        | cons d t2 => rw [likeRaw_us_cons, likeEsc_us_cons, ih hp2 t2]
      · cases t with
        | nil => rw [likeRaw_lit_nil c h2 h3, likeEsc_lit_nil c hc h2 h3]
        | cons d t2 => rw [likeRaw_lit_cons c h2 h3, likeEsc_lit_cons c hc h2 h3, ih hp2 t2]

theorem likeEsc_append_right : ∀ (q : List Char), '\\' ∉ q →
    ∀ t s, likeEsc (q ++ ['%']) t = true → likeEsc (q ++ ['%']) (t ++ s) = true := by
  intro q
  induction q with
  | nil =>
    intro _ t s _
    simpa using likeEsc_percent_nil (t ++ s)
  | cons c q ih =>
    intro hq t s h
    have hc : c ≠ '\\' := fun hx => hq (hx ▸ List.mem_cons_self c q)
    have hq2 : '\\' ∉ q := fun hx => hq (List.mem_cons_of_mem c hx)
    by_cases h2 : c = '%'
    · subst h2
      rw [List.cons_append, likeEsc_percent_iff] at h ⊢
      obtain ⟨t2, ⟨u, hu⟩, hm⟩ := h
      exact ⟨t2 ++ s, ⟨u, by rw [← List.append_assoc, hu]⟩, ih hq2 t2 s hm⟩
    · by_cases h3 : c = '_'
      · subst h3
        cases t with
        | nil =>
          rw [List.cons_append, likeEsc_us_nil] at h
          exact absurd h (by simp)
        | cons d t2 =>
          rw [List.cons_append, likeEsc_us_cons] at h
          rw [List.cons_append, List.cons_append, likeEsc_us_cons]
          exact ih hq2 t2 s h
      · cases t with
        | nil =>
          rw [List.cons_append, likeEsc_lit_nil c hc h2 h3] at h
          exact absurd h (by simp)
        | cons d t2 =>
          rw [List.cons_append, likeEsc_lit_cons c hc h2 h3, Bool.and_eq_true] at h
          rw [List.cons_append, List.cons_append, likeEsc_lit_cons c hc h2 h3, Bool.and_eq_true]
          exact ⟨h.1, ih hq2 t2 s h.2⟩

/-- The catch-all marker phrase of `_is_catch_all_street`. -/
theorem is_catch_all_street_iff (col : Option String) :
    is_catch_all_street col = true ↔ "all other street".data <:+: normalized_text col := by
  rw [is_catch_all_street,
    show ("%all other street%".data) = '%' :: ("all other street".data ++ ['%']) from by decide,
    likeRaw_eq_likeEsc _ (by decide),
    likeEsc_contains_iff _ _ (by decide)]

theorem contains_condition_iff (qn : List Char) (r : ZonalValue) :
    contains_condition qn r = true ↔ qn <:+: normalized_text r.street_subdivision := by
  rw [contains_condition, like_pattern_iff]

theorem mem_ordered_rows (pg : Bool) (tbl : List ZonalValue) (f : Filters) (r : ZonalValue) :
    r ∈ ordered_rows pg tbl f ↔ r ∈ tbl ∧ row_condition pg tbl f r = true := by
  rw [ordered_rows,
    (List.perm_insertionSort (row_order tbl f) (filtered_rows pg tbl f)).mem_iff,
    filtered_rows, List.mem_filter]

theorem length_ordered_rows (pg : Bool) (tbl : List ZonalValue) (f : Filters) :
    (ordered_rows pg tbl f).length = (filtered_rows pg tbl f).length :=
  (List.perm_insertionSort (row_order tbl f) (filtered_rows pg tbl f)).length_eq

theorem row_condition_street_split (pg : Bool) (tbl : List ZonalValue) (f : Filters) (r : ZonalValue) :
    row_condition pg tbl f r =
      (row_condition pg tbl { f with street := none } r && street_condition tbl f.street r) := by
  simp [row_condition, street_condition, truthy]

theorem street_isEmpty_false {q : String} (hqn : street_query_norm q ≠ []) :
    q.isEmpty = false := by
  cases hqe : q.isEmpty
  · rfl
  · exfalso
    apply hqn
    rw [String.isEmpty_iff] at hqe
    subst hqe
    rfl

theorem street_condition_some (tbl : List ZonalValue) {q : String} (r : ZonalValue)
    (hqn : street_query_norm q ≠ []) :
    street_condition tbl (some q) r = street_inclusion_condition tbl (street_query_norm q) r := by
  have h1 : q.isEmpty = false := street_isEmpty_false hqn
  have h2 : (street_query_norm q).isEmpty = false := by
    cases h : street_query_norm q
    · exact absurd h hqn
    · rfl
  simp [street_condition, truthy, h1, h2]

theorem street_rank_opt_some (tbl : List ZonalValue) (f : Filters) (r : ZonalValue)
    {q : String} (hq : f.street = some q) (hqn : street_query_norm q ≠ []) :
    street_rank_opt tbl f r = some (street_rank tbl (street_query_norm q) r) := by
  have h1 : q.isEmpty = false := street_isEmpty_false hqn
  have h2 : (street_query_norm q).isEmpty = false := by
    cases h : street_query_norm q
    · exact absurd h hqn
    · rfl
  simp [street_rank_opt, hq, truthy, h1, h2]

theorem exact_match_condition_iff (qn : List Char) (r : ZonalValue) :
    exact_match_condition qn r = true ↔ normalized_text r.street_subdivision = qn := by
  simp [exact_match_condition]

theorem named_match_condition_iff (qn : List Char) (r : ZonalValue) :
    named_match_condition qn r = true ↔
      qn <:+: normalized_text r.street_subdivision ∧
      ¬ ("all other street".data <:+: normalized_text r.street_subdivision) := by
  rw [named_match_condition, Bool.and_eq_true, contains_condition_iff, Bool.not_eq_true']
  rw [← Bool.not_eq_true, not_iff_not.mpr (is_catch_all_street_iff r.street_subdivision)]

theorem named_peer_exists_iff_other (tbl : List ZonalValue) (qn : List Char) (r : ZonalValue)
    (hr : is_catch_all_street r.street_subdivision = true) :
    named_peer_exists tbl qn r = true ↔
      ∃ p ∈ tbl, p ≠ r ∧ same_scope_condition p r = true ∧
        qn <:+: normalized_text p.street_subdivision ∧
        ¬ ("all other street".data <:+: normalized_text p.street_subdivision) := by
  rw [named_peer_exists, List.any_eq_true]
  constructor
  · rintro ⟨p, hp, hcond⟩
    rw [Bool.and_eq_true, Bool.and_eq_true, Bool.not_eq_true'] at hcond
    obtain ⟨⟨hscope, hcontains⟩, hcatch⟩ := hcond
    have hne : p ≠ r := by
      intro he
      rw [he, hr] at hcatch
      cases hcatch
    refine ⟨p, hp, hne, hscope, (contains_condition_iff qn p).mp hcontains, ?_⟩
    rw [← Bool.not_eq_true, not_iff_not.mpr (is_catch_all_street_iff p.street_subdivision)] at hcatch
    exact hcatch
  · rintro ⟨p, hp, -, hscope, hcontains, hcatch⟩
    refine ⟨p, hp, ?_⟩
    rw [Bool.and_eq_true, Bool.and_eq_true, Bool.not_eq_true']
    rw [← not_iff_not.mpr (is_catch_all_street_iff p.street_subdivision), Bool.not_eq_true] at hcatch
    exact ⟨⟨hscope, (contains_condition_iff qn p).mpr hcontains⟩, hcatch⟩

theorem catch_all_fallback_condition_iff (tbl : List ZonalValue) (qn : List Char) (r : ZonalValue) :
    catch_all_fallback_condition tbl qn r = true ↔
      ("all other street".data <:+: normalized_text r.street_subdivision) ∧
      ¬ ∃ p ∈ tbl, p ≠ r ∧ same_scope_condition p r = true ∧
          qn <:+: normalized_text p.street_subdivision ∧
          ¬ ("all other street".data <:+: normalized_text p.street_subdivision) := by
  rw [catch_all_fallback_condition, Bool.and_eq_true]
  constructor
  · rintro ⟨hcatch, hpeer⟩
    rw [Bool.not_eq_true'] at hpeer
    refine ⟨(is_catch_all_street_iff r.street_subdivision).mp hcatch, ?_⟩
    rw [← named_peer_exists_iff_other tbl qn r hcatch, hpeer]
    simp
  · rintro ⟨hcatch, hpeer⟩
    have hc : is_catch_all_street r.street_subdivision = true :=
      (is_catch_all_street_iff r.street_subdivision).mpr hcatch
    refine ⟨hc, ?_⟩
    rw [Bool.not_eq_true', ← Bool.not_eq_true]
    rw [named_peer_exists_iff_other tbl qn r hc]
    exact hpeer

theorem street_inclusion_condition_iff (tbl : List ZonalValue) (qn : List Char) (r : ZonalValue) :
    street_inclusion_condition tbl qn r = true ↔
      (normalized_text r.street_subdivision = qn ∨
       (qn <:+: normalized_text r.street_subdivision ∧
         ¬ ("all other street".data <:+: normalized_text r.street_subdivision)) ∨
       (("all other street".data <:+: normalized_text r.street_subdivision) ∧
         ¬ ∃ p ∈ tbl, p ≠ r ∧ same_scope_condition p r = true ∧
             qn <:+: normalized_text p.street_subdivision ∧
             ¬ ("all other street".data <:+: normalized_text p.street_subdivision))) := by
  rw [street_inclusion_condition, Bool.or_eq_true, Bool.or_eq_true, or_assoc]
  exact or_congr (exact_match_condition_iff qn r)
    (or_congr (named_match_condition_iff qn r) (catch_all_fallback_condition_iff tbl qn r))

theorem rank_le_of_row_order (tbl : List ZonalValue) (f : Filters) {q : String}
    (hq : f.street = some q) (hqn : street_query_norm q ≠ []) {a b : ZonalValue}
    (h : row_order tbl f a b) :
    street_rank tbl (street_query_norm q) a ≤ street_rank tbl (street_query_norm q) b := by
  rw [row_order, sort_key, sort_key] at h
  rcases (Prod.Lex.le_iff _ _).mp h with h1 | ⟨h1, -⟩
  · simp only [street_rank_opt_some tbl f _ hq hqn, Option.getD_some] at h1
    exact le_of_lt h1
  · simp only [street_rank_opt_some tbl f _ hq hqn, Option.getD_some] at h1
    exact le_of_eq h1

theorem c1_street_ranking (pg : Bool) (tbl : List ZonalValue) (f : Filters)
    (q : String) (hq : f.street = some q) (hqn : street_query_norm q ≠ []) :
    (∀ r, r ∈ ordered_rows pg tbl f ↔
      (r ∈ tbl ∧ row_condition pg tbl { f with street := none } r = true ∧
        (normalized_text r.street_subdivision = street_query_norm q ∨
         (street_query_norm q <:+: normalized_text r.street_subdivision ∧
           ¬ ("all other street".data <:+: normalized_text r.street_subdivision)) ∨
         (("all other street".data <:+: normalized_text r.street_subdivision) ∧
           ¬ ∃ p ∈ tbl, p ≠ r ∧ same_scope_condition p r = true ∧
               street_query_norm q <:+: normalized_text p.street_subdivision ∧
               ¬ ("all other street".data <:+: normalized_text p.street_subdivision))))) ∧
    List.Pairwise
      (fun a b => street_rank tbl (street_query_norm q) a ≤ street_rank tbl (street_query_norm q) b)
      (ordered_rows pg tbl f) := by
  constructor
  · intro r
    rw [mem_ordered_rows, row_condition_street_split, hq, Bool.and_eq_true,
      street_condition_some tbl r hqn, street_inclusion_condition_iff]
  · exact List.Pairwise.imp (fun hab => rank_le_of_row_order tbl f hq hqn hab)
      (List.sorted_insertionSort (row_order tbl f) (filtered_rows pg tbl f))

theorem c1_street_ranking_witness :
    street_query_norm "Main St." ≠ [] ∧
    ((∀ r, r ∈ ordered_rows false wit_tbl wit_street_filters ↔
      (r ∈ wit_tbl ∧
        row_condition false wit_tbl { wit_street_filters with street := none } r = true ∧
        (normalized_text r.street_subdivision = street_query_norm "Main St." ∨
         (street_query_norm "Main St." <:+: normalized_text r.street_subdivision ∧
           ¬ ("all other street".data <:+: normalized_text r.street_subdivision)) ∨
         (("all other street".data <:+: normalized_text r.street_subdivision) ∧
           ¬ ∃ p ∈ wit_tbl, p ≠ r ∧ same_scope_condition p r = true ∧
               street_query_norm "Main St." <:+: normalized_text p.street_subdivision ∧
               ¬ ("all other street".data <:+: normalized_text p.street_subdivision))))) ∧
    List.Pairwise
      (fun a b => street_rank wit_tbl (street_query_norm "Main St.") a ≤
        street_rank wit_tbl (street_query_norm "Main St.") b)
      (ordered_rows false wit_tbl wit_street_filters)) :=
  ⟨by decide, c1_street_ranking false wit_tbl wit_street_filters "Main St." rfl (by decide)⟩

theorem toLower_eq_backslash {c : Char} (h : c.toLower = '\\') : c = '\\' := by
  unfold Char.toLower at h
  simp only [] at h
  split at h
  case isTrue hc =>
    exfalso
    obtain ⟨h1, h2⟩ := hc
    generalize hg : c.toNat = n at h h1 h2
    interval_cases n <;> exact absurd h (by decide)
  case isFalse hc => exact h

theorem mem_of_mem_stripChars {c : Char} {l : List Char} (h : c ∈ stripChars l) : c ∈ l := by
  rw [stripChars, List.mem_reverse] at h
  have h2 := (List.dropWhile_sublist _).subset h
  rw [List.mem_reverse] at h2
  exact (List.dropWhile_sublist _).subset h2

theorem backslash_not_mem_lowerChars {l : List Char} (h : '\\' ∉ l) : '\\' ∉ lowerChars l := by
  intro hmem
  rw [lowerChars, List.mem_map] at hmem
  obtain ⟨c, hc, hlow⟩ := hmem
  exact h (toLower_eq_backslash hlow ▸ hc)

theorem lowerChars_pattern (ns : List Char) :
    lowerChars ('%' :: (ns ++ ['%'])) = '%' :: (lowerChars ns ++ ['%']) := by
  simp [lowerChars]

/-- Claim C7: for every filter set, the total returned by the list query
equals the true number of rows matching the predicate — independent of
`page` and `page_size` — and equals the summary's `total_records`.  Both the
count query and the summary aggregate run over the subquery built from the
same `_apply_conditions` predicate. -/
theorem c7_total_count_consistency (pg : Bool) (tbl : List ZonalValue) (f : Filters)
    (page page_size page2 page_size2 : Nat) :
    (get_zonal_values pg tbl f page page_size).2 =
      (tbl.filter (row_condition pg tbl f)).length ∧
    (get_zonal_values pg tbl f page page_size).2 =
      (get_zonal_values pg tbl f page2 page_size2).2 ∧
    (get_zonal_summary pg tbl f).total_records =
      (get_zonal_values pg tbl f page page_size).2 :=
  ⟨rfl, rfl, rfl⟩

/-- Claim C8: the page of rows starts at offset `(page-1)*page_size` and has
length `min page_size (total - offset)` (truncated subtraction gives the
`max 0`); a page past the end yields `[]`, not an error. -/
theorem c8_pagination (pg : Bool) (tbl : List ZonalValue) (f : Filters)
    (page page_size : Nat) (hpage : 1 ≤ page) (hps : 1 ≤ page_size) :
    (get_zonal_values pg tbl f page page_size).1.length =
      min page_size
        ((get_zonal_values pg tbl f page page_size).2 - (page - 1) * page_size) ∧
    ((get_zonal_values pg tbl f page page_size).2 ≤ (page - 1) * page_size →
      (get_zonal_values pg tbl f page page_size).1 = []) := by
  have hlen : (get_zonal_values pg tbl f page page_size).1.length =
      min page_size
        ((get_zonal_values pg tbl f page page_size).2 - (page - 1) * page_size) := by
    show ((((ordered_rows pg tbl f).drop ((page - 1) * page_size)).take page_size).length) = _
    rw [List.length_take, List.length_drop, length_ordered_rows]
    rfl
  refine ⟨hlen, fun hle => ?_⟩
  apply List.eq_nil_of_length_eq_zero
  rw [hlen, Nat.sub_eq_zero_of_le hle]
  exact Nat.min_zero page_size

/-- Witness for C8 at a concrete table, including a page past the end. -/
theorem c8_pagination_witness :
    (1 ≤ 5 ∧ 1 ≤ 2) ∧
    ((get_zonal_values false wit_tbl {} 5 2).1.length =
      min 2 ((get_zonal_values false wit_tbl {} 5 2).2 - (5 - 1) * 2) ∧
    ((get_zonal_values false wit_tbl {} 5 2).2 ≤ (5 - 1) * 2 →
      (get_zonal_values false wit_tbl {} 5 2).1 = [])) :=
  ⟨⟨by decide, by decide⟩, c8_pagination false wit_tbl {} 5 2 (by decide) (by decide)⟩

/-- Claim C9: the export route reads `settings.export_max_rows`, but
`Settings` in `config.py` declares no such field, so every export request
raises `AttributeError` instead of returning capped rows with truncation
metadata. -/
theorem c9_export_endpoint_raises (pg : Bool) (tbl : List ZonalValue) (f : Filters) :
    export_endpoint pg tbl f = Except.error "AttributeError: export_max_rows" := rfl

/-- Claim C10: in the catch-all sibling scope comparison each of the five
scope columns is wrapped in `coalesce(·, '')`, so a `NULL` scope field and
an empty-string scope field compare equal. -/
theorem c10_scope_null_eq_empty (p r : ZonalValue)
    (h1 : p.province = none) (h1' : r.province = some "")
    (h2 : p.city_municipality = none) (h2' : r.city_municipality = some "")
    (h3 : p.barangay = none) (h3' : r.barangay = some "")
    (h4 : p.property_class = none) (h4' : r.property_class = some "")
    (h5 : p.dataset_version = none) (h5' : r.dataset_version = some "") :
    same_scope_condition p r = true := by
  simp [same_scope_condition, coalesceStr, h1, h1', h2, h2', h3, h3', h4, h4', h5, h5']

theorem c10_scope_null_eq_empty_witness :
    wit_null_scope.province = none ∧ wit_empty_scope.province = some "" ∧
    same_scope_condition wit_null_scope wit_empty_scope = true :=
  ⟨rfl, rfl,
    c10_scope_null_eq_empty wit_null_scope wit_empty_scope
      rfl rfl rfl rfl rfl rfl rfl rfl rfl rfl⟩

/-- Claim C5 counterexample: with the street term "Main St." the summary is
computed over the street-restricted subquery, so the sibling catch-all row
(excluded by the street fallback) is **not** counted — `catch_all_records`
is 0, while the count the claim describes (non-street predicate only) is 1. -/
theorem c5_catch_all_counterexample :
    (get_zonal_summary false wit_tbl wit_street_filters).catch_all_records = 0 ∧
    (wit_tbl.filter (fun r =>
        row_condition false wit_tbl { wit_street_filters with street := none } r &&
        is_catch_all_street r.street_subdivision)).length = 1 := by
  decide

/-- Claim C5 amended: `catch_all_records` counts the catch-all rows among the
rows satisfying the **full** predicate — including the street inclusion
restriction when a street term is given — not the street-free predicate. -/
theorem c5_catch_all_within_full_predicate (pg : Bool) (tbl : List ZonalValue) (f : Filters) :
    (get_zonal_summary pg tbl f).catch_all_records =
      (tbl.filter (fun r =>
        row_condition pg tbl f r && is_catch_all_street r.street_subdivision)).length := by
  show ((filtered_rows pg tbl f).filter
      (fun r => is_catch_all_street r.street_subdivision)).length = _
  rw [filtered_rows, List.filter_filter]
  exact congrArg List.length
    (List.filter_congr fun a _ => Bool.and_comm _ _)

theorem sorted_zonal_values_length (filtered : List ZonalValue) :
    (sorted_zonal_values filtered).length = (filtered.filterMap ZonalValue.zonal_value).length :=
  (List.perm_insertionSort _ _).length_eq

/-- Claim C3: on the non-fulltext backend, `median_value` is `none` for an
empty value set, the middle element (0-indexed offset `N / 2` of the
ascending order) for odd `N`, and the exact rational mean of the elements
at offsets `N / 2 - 1` and `N / 2` for even `N`. -/
theorem c3_sqlite_median (tbl : List ZonalValue) (f : Filters) :
    (((filtered_rows false tbl f).filterMap ZonalValue.zonal_value).length = 0 →
      (get_zonal_summary false tbl f).median_value = none) ∧
    (((filtered_rows false tbl f).filterMap ZonalValue.zonal_value).length % 2 = 1 →
      (get_zonal_summary false tbl f).median_value =
        (sorted_zonal_values (filtered_rows false tbl f))[((filtered_rows false tbl f).filterMap ZonalValue.zonal_value).length / 2]?) ∧
    (((filtered_rows false tbl f).filterMap ZonalValue.zonal_value).length % 2 = 0 →
      ((filtered_rows false tbl f).filterMap ZonalValue.zonal_value).length ≠ 0 →
      ∀ a b : ℚ,
        (sorted_zonal_values (filtered_rows false tbl f))[((filtered_rows false tbl f).filterMap ZonalValue.zonal_value).length / 2 - 1]? = some a →
        (sorted_zonal_values (filtered_rows false tbl f))[((filtered_rows false tbl f).filterMap ZonalValue.zonal_value).length / 2]? = some b →
      (get_zonal_summary false tbl f).median_value = some ((a + b) / 2)) := by
  have hmed : (get_zonal_summary false tbl f).median_value =
      sqlite_median (filtered_rows false tbl f) := rfl
  set filtered := filtered_rows false tbl f with hf
  set n := (filtered.filterMap ZonalValue.zonal_value).length with hn
  refine ⟨fun h0 => ?_, fun hodd => ?_, fun heven hne a b ha hb => ?_⟩
  · rw [hmed, sqlite_median, ← hn, if_pos h0]
  · have hne : n ≠ 0 := by omega
    rw [hmed, sqlite_median, ← hn, if_neg hne, if_pos hodd, List.head?_drop]
  · have hpair : ((sorted_zonal_values filtered).drop (n / 2 - 1)).take 2 = [a, b] := by
      have hlen : (sorted_zonal_values filtered).length = n := by
        rw [sorted_zonal_values_length, hn]
      have hplen : (((sorted_zonal_values filtered).drop (n / 2 - 1)).take 2).length = 2 := by
        rw [List.length_take, List.length_drop, hlen]
        omega
      obtain ⟨x, y, hxy⟩ := List.length_eq_two.mp hplen
      have hx : (((sorted_zonal_values filtered).drop (n / 2 - 1)).take 2)[0]? = some x := by
        rw [hxy]; rfl
      have hy : (((sorted_zonal_values filtered).drop (n / 2 - 1)).take 2)[1]? = some y := by
        rw [hxy]; rfl
      rw [List.getElem?_take, if_pos (by omega), List.getElem?_drop, Nat.add_zero, ha] at hx
      rw [List.getElem?_take, if_pos (by omega), List.getElem?_drop,
        show n / 2 - 1 + 1 = n / 2 by omega, hb] at hy
      rw [hxy, ← Option.some_inj.mp hx, ← Option.some_inj.mp hy]
    rw [hmed, sqlite_median, ← hn, if_neg hne, if_neg (by omega), hpair]

theorem c3_sqlite_median_witness :
    (((filtered_rows false wit_med3 {}).filterMap ZonalValue.zonal_value).length % 2 = 1 ∧
      (get_zonal_summary false wit_med3 {}).median_value = some 20) ∧
    (((filtered_rows false wit_med4 {}).filterMap ZonalValue.zonal_value).length % 2 = 0 ∧
      (get_zonal_summary false wit_med4 {}).median_value = some ((20 + 30 : ℚ) / 2)) :=
  ⟨⟨by decide, ((c3_sqlite_median wit_med3 {}).2.1 (by decide)).trans (by decide)⟩,
   ⟨by decide,
    (c3_sqlite_median wit_med4 {}).2.2 (by decide) (by decide) 20 30 (by decide) (by decide)⟩⟩

/-- Claim C4 (code-bug evidence): `_apply_conditions` builds the search
pattern as `f"%{normalized_search}%"` without calling `_like_pattern`, so a
`%` in the user's term acts as a wildcard.  The term `50%` matches a record
whose fields contain `50` but not the literal text `50%`, on both the
SQLite and the Postgres path. -/
theorem c4_search_wildcard_not_escaped :
    search_condition false (some "50%") wit_block50 = true ∧
    search_condition true (some "50%") wit_block50 = true ∧
    ¬ ("50%".data <:+: lowerChars (search_blob wit_block50).data) := by
  decide

theorem truthy_of_ne_empty {u : String} (hu : u ≠ "") : truthy (some u) = true := by
  have h : u.isEmpty = false := by
    cases h : u.isEmpty
    · rfl
    · exact absurd ((String.isEmpty_iff u).mp h) hu
  simp [truthy, h]

theorem sql_ilike_congr (pg : Bool) (col : Option String) {p1 p2 : List Char}
    (h : lowerChars p1 = lowerChars p2) : sql_ilike pg col p1 = sql_ilike pg col p2 := by
  cases col <;> simp [sql_ilike, h]

theorem ilike_filter_congr (pg : Bool) (col : Option String) {u v : String}
    (hlow : lowerChars (stripChars u.data) = lowerChars (stripChars v.data)) :
    ilike_filter pg col u = ilike_filter pg col v := by
  apply sql_ilike_congr
  rw [lowerChars_pattern, lowerChars_pattern, hlow]

theorem ts_match_congr {t1 t2 : List Char} (h : lowerChars t1 = lowerChars t2)
    (b : List Char) : ts_match t1 b = ts_match t2 b := by
  simp [ts_match, simple_tokens, h]

theorem strip_nil_transfer {u v : String}
    (hlow : lowerChars (stripChars u.data) = lowerChars (stripChars v.data)) :
    stripChars u.data = [] ↔ stripChars v.data = [] := by
  constructor <;> intro h
  · rw [h] at hlow
    exact List.map_eq_nil_iff.mp hlow.symm
  · rw [h] at hlow
    exact List.map_eq_nil_iff.mp hlow

theorem search_condition_congr (pg : Bool) {u v : String} (r : ZonalValue)
    (hu : u ≠ "") (hv : v ≠ "")
    (hlow : lowerChars (stripChars u.data) = lowerChars (stripChars v.data)) :
    search_condition pg (some u) r = search_condition pg (some v) r := by
  rw [search_condition, search_condition, truthy_of_ne_empty hu, truthy_of_ne_empty hv]
  simp only [if_true]
  have hnt : normalize_token (some u) = stripChars u.data := rfl
  have hnt2 : normalize_token (some v) = stripChars v.data := rfl
  rw [hnt, hnt2]
  have hAB : (stripChars u.data).isEmpty = (stripChars v.data).isEmpty := by
    by_cases h0 : stripChars u.data = []
    · rw [h0, (strip_nil_transfer hlow).mp h0]
    · have h0v : stripChars v.data ≠ [] := fun h => h0 ((strip_nil_transfer hlow).mpr h)
      rw [show (stripChars u.data).isEmpty = false by
            cases hh : (stripChars u.data).isEmpty
            · rfl
            · exact absurd (List.isEmpty_iff.mp hh) h0,
          show (stripChars v.data).isEmpty = false by
            cases hh : (stripChars v.data).isEmpty
            · rfl
            · exact absurd (List.isEmpty_iff.mp hh) h0v]
  rw [hAB]
  cases hc : (stripChars v.data).isEmpty
  · simp only [Bool.false_eq_true, if_false]
    have hpat : lowerChars ('%' :: (stripChars u.data ++ ['%'])) =
        lowerChars ('%' :: (stripChars v.data ++ ['%'])) := by
      rw [lowerChars_pattern, lowerChars_pattern, hlow]
    cases pg
    · simp only [Bool.false_eq_true, if_false]
      have hfun : (fun col => sql_ilike false col ('%' :: (stripChars u.data ++ ['%']))) =
          (fun col => sql_ilike false col ('%' :: (stripChars v.data ++ ['%']))) :=
        funext fun col => sql_ilike_congr false col hpat
      rw [hfun]
    · simp only [if_true]
      rw [ts_match_congr hlow, sql_ilike_congr true _ hpat]
  · simp only [if_true]

theorem street_condition_congr (tbl : List ZonalValue) {u v : String} (r : ZonalValue)
    (hu : u ≠ "") (hv : v ≠ "")
    (hlow : lowerChars (stripChars u.data) = lowerChars (stripChars v.data)) :
    street_condition tbl (some u) r = street_condition tbl (some v) r := by
  have hq : street_query_norm u = street_query_norm v := hlow
  rw [street_condition, street_condition, truthy_of_ne_empty hu, truthy_of_ne_empty hv]
  simp only [if_true, Option.getD_some]
  rw [hq]

theorem dataset_version_condition_congr (col : Option String) {u v : String}
    (hstrip : stripChars u.data = stripChars v.data) :
    dataset_version_condition col u = dataset_version_condition col v := by
  cases col <;> simp [dataset_version_condition, hstrip]

theorem search_condition_ws (pg : Bool) (r : ZonalValue) :
    search_condition pg (some " ") r = search_condition pg none r := rfl

theorem street_condition_ws (tbl : List ZonalValue) (r : ZonalValue) :
    street_condition tbl (some " ") r = street_condition tbl none r := rfl

/-- Claim C6 amended: all nine text filters are trimmed (and the substring
filters matched case-insensitively), so values equal after trim and
lowercase give identical predicates; `search` and `street` treat a
whitespace-only value as not provided; but the seven plain column filters
do **not** — a whitespace-only value there still adds a predicate (see the
counterexample). -/
theorem c6_filter_normalization (pg : Bool) (tbl : List ZonalValue) (f : Filters)
    (r : ZonalValue) (u v : String) (hu : u ≠ "") (hv : v ≠ "")
    (hlow : lowerChars (stripChars u.data) = lowerChars (stripChars v.data)) :
    (row_condition pg tbl { f with search := some u } r =
       row_condition pg tbl { f with search := some v } r) ∧
    (row_condition pg tbl { f with region := some u } r =
       row_condition pg tbl { f with region := some v } r) ∧
    (row_condition pg tbl { f with province := some u } r =
       row_condition pg tbl { f with province := some v } r) ∧
    (row_condition pg tbl { f with city := some u } r =
       row_condition pg tbl { f with city := some v } r) ∧
    (row_condition pg tbl { f with barangay := some u } r =
       row_condition pg tbl { f with barangay := some v } r) ∧
    (row_condition pg tbl { f with property_class := some u } r =
       row_condition pg tbl { f with property_class := some v } r) ∧
    (row_condition pg tbl { f with property_type := some u } r =
       row_condition pg tbl { f with property_type := some v } r) ∧
    (stripChars u.data = stripChars v.data →
      row_condition pg tbl { f with dataset_version := some u } r =
        row_condition pg tbl { f with dataset_version := some v } r) ∧
    (row_condition pg tbl { f with street := some u } r =
       row_condition pg tbl { f with street := some v } r) ∧
    (row_condition pg tbl { f with search := some " " } r =
       row_condition pg tbl { f with search := none } r) ∧
    (row_condition pg tbl { f with street := some " " } r =
       row_condition pg tbl { f with street := none } r) := by
  refine ⟨?_, ?_, ?_, ?_, ?_, ?_, ?_, fun hstrip => ?_, ?_, ?_, ?_⟩
  · dsimp only [row_condition]
    rw [search_condition_congr pg r hu hv hlow]
  · dsimp only [row_condition]
    rw [truthy_of_ne_empty hu, truthy_of_ne_empty hv]
    simp only [if_true, Option.getD_some]
    rw [ilike_filter_congr pg r.region hlow]
  · dsimp only [row_condition]
    rw [truthy_of_ne_empty hu, truthy_of_ne_empty hv]
    simp only [if_true, Option.getD_some]
    rw [ilike_filter_congr pg r.province hlow]
  · dsimp only [row_condition]
    rw [truthy_of_ne_empty hu, truthy_of_ne_empty hv]
    simp only [if_true, Option.getD_some]
    rw [ilike_filter_congr pg r.city_municipality hlow]
  · dsimp only [row_condition]
    rw [truthy_of_ne_empty hu, truthy_of_ne_empty hv]
    simp only [if_true, Option.getD_some]
    rw [ilike_filter_congr pg r.barangay hlow]
  · dsimp only [row_condition]
    rw [truthy_of_ne_empty hu, truthy_of_ne_empty hv]
    simp only [if_true, Option.getD_some]
    rw [ilike_filter_congr pg r.property_class hlow]
  · dsimp only [row_condition]
    rw [truthy_of_ne_empty hu, truthy_of_ne_empty hv]
    simp only [if_true, Option.getD_some]
    rw [ilike_filter_congr pg r.property_type hlow]
  · dsimp only [row_condition]
    rw [truthy_of_ne_empty hu, truthy_of_ne_empty hv]
    simp only [if_true, Option.getD_some]
    rw [dataset_version_condition_congr r.dataset_version hstrip]
  · dsimp only [row_condition]
    rw [street_condition_congr tbl r hu hv hlow]
  · dsimp only [row_condition]
    rw [search_condition_ws]
  · dsimp only [row_condition]
    rw [street_condition_ws]

/-- Claim C6 counterexample: a whitespace-only `region` value is truthy in
Python, so the code still adds the predicate `region ILIKE '%%'`, which
excludes rows with a `NULL` region; the result set differs from the one
with the filter omitted, contradicting "a value that is empty after
trimming adds no predicate". -/
theorem c6_whitespace_counterexample :
    get_zonal_values false [wit_nullregion] { region := some " " } 1 25 ≠
      get_zonal_values false [wit_nullregion] {} 1 25 := by
  decide

theorem c6_filter_normalization_witness :
    (" NCR " ≠ "" ∧ "ncr" ≠ "" ∧
      lowerChars (stripChars " NCR ".data) = lowerChars (stripChars "ncr".data)) ∧
    ((row_condition false [wit_ncr] { (({} : Filters)) with search := some " NCR " } wit_ncr =
       row_condition false [wit_ncr] { (({} : Filters)) with search := some "ncr" } wit_ncr) ∧
    (row_condition false [wit_ncr] { (({} : Filters)) with region := some " NCR " } wit_ncr =
       row_condition false [wit_ncr] { (({} : Filters)) with region := some "ncr" } wit_ncr) ∧
    (row_condition false [wit_ncr] { (({} : Filters)) with province := some " NCR " } wit_ncr =
       row_condition false [wit_ncr] { (({} : Filters)) with province := some "ncr" } wit_ncr) ∧
    (row_condition false [wit_ncr] { (({} : Filters)) with city := some " NCR " } wit_ncr =
       row_condition false [wit_ncr] { (({} : Filters)) with city := some "ncr" } wit_ncr) ∧
    (row_condition false [wit_ncr] { (({} : Filters)) with barangay := some " NCR " } wit_ncr =
       row_condition false [wit_ncr] { (({} : Filters)) with barangay := some "ncr" } wit_ncr) ∧
    (row_condition false [wit_ncr] { (({} : Filters)) with property_class := some " NCR " } wit_ncr =
       row_condition false [wit_ncr] { (({} : Filters)) with property_class := some "ncr" } wit_ncr) ∧
    (row_condition false [wit_ncr] { (({} : Filters)) with property_type := some " NCR " } wit_ncr =
       row_condition false [wit_ncr] { (({} : Filters)) with property_type := some "ncr" } wit_ncr) ∧
    (stripChars " NCR ".data = stripChars "ncr".data →
      row_condition false [wit_ncr] { (({} : Filters)) with dataset_version := some " NCR " } wit_ncr =
        row_condition false [wit_ncr] { (({} : Filters)) with dataset_version := some "ncr" } wit_ncr) ∧
    (row_condition false [wit_ncr] { (({} : Filters)) with street := some " NCR " } wit_ncr =
       row_condition false [wit_ncr] { (({} : Filters)) with street := some "ncr" } wit_ncr) ∧
    (row_condition false [wit_ncr] { (({} : Filters)) with search := some " " } wit_ncr =
       row_condition false [wit_ncr] { (({} : Filters)) with search := none } wit_ncr) ∧
    (row_condition false [wit_ncr] { (({} : Filters)) with street := some " " } wit_ncr =
       row_condition false [wit_ncr] { (({} : Filters)) with street := none } wit_ncr)) :=
  ⟨⟨by decide, by decide, by decide⟩,
   c6_filter_normalization false [wit_ncr] {} wit_ncr " NCR " "ncr"
     (by decide) (by decide) (by decide)⟩

theorem isInfix_append_left {α : Type} {b c : List α} (a : List α) (h : b <:+: c) :
    b <:+: a ++ c := by
  obtain ⟨s, t, rfl⟩ := h
  exact ⟨a ++ s, t, by simp [List.append_assoc]⟩

theorem isInfix_self_append {α : Type} (b t : List α) : b <:+: b ++ t :=
  ⟨[], t, by simp⟩

theorem col_infix_blob (r : ZonalValue) (col : Option String) (h : col ∈ searchable_cols r) :
    (coalesceStr col).data <:+: (search_blob r).data := by
  have hb : (search_blob r).data =
      (coalesceStr r.rdo_code).data ++ (" ".data ++ ((coalesceStr r.region).data ++ (" ".data ++
      ((coalesceStr r.province).data ++ (" ".data ++ ((coalesceStr r.city_municipality).data ++ (" ".data ++
      ((coalesceStr r.barangay).data ++ (" ".data ++ ((coalesceStr r.street_subdivision).data ++ (" ".data ++
      ((coalesceStr r.property_class).data ++ (" ".data ++ ((coalesceStr r.property_type).data ++ (" ".data ++
      ((coalesceStr r.dataset_version).data ++ (" ".data ++
      (coalesceStr (zonal_value_text r)).data))))))))))))))))) := by
    simp [search_blob, List.append_assoc]
  rw [hb]
  fin_cases h
  · exact isInfix_self_append _ _
  · exact isInfix_append_left _ (isInfix_append_left _ (isInfix_self_append _ _))
  · exact isInfix_append_left _ (isInfix_append_left _ (isInfix_append_left _
      (isInfix_append_left _ (isInfix_self_append _ _))))
  · exact isInfix_append_left _ (isInfix_append_left _ (isInfix_append_left _
      (isInfix_append_left _ (isInfix_append_left _ (isInfix_append_left _
      (isInfix_self_append _ _))))))
  · exact isInfix_append_left _ (isInfix_append_left _ (isInfix_append_left _
      (isInfix_append_left _ (isInfix_append_left _ (isInfix_append_left _
      (isInfix_append_left _ (isInfix_append_left _ (isInfix_self_append _ _))))))))
  · exact isInfix_append_left _ (isInfix_append_left _ (isInfix_append_left _
      (isInfix_append_left _ (isInfix_append_left _ (isInfix_append_left _
      (isInfix_append_left _ (isInfix_append_left _ (isInfix_append_left _
      (isInfix_append_left _ (isInfix_self_append _ _))))))))))
  · exact isInfix_append_left _ (isInfix_append_left _ (isInfix_append_left _
      (isInfix_append_left _ (isInfix_append_left _ (isInfix_append_left _
      (isInfix_append_left _ (isInfix_append_left _ (isInfix_append_left _
      (isInfix_append_left _ (isInfix_append_left _ (isInfix_append_left _
      (isInfix_self_append _ _))))))))))))
  · exact isInfix_append_left _ (isInfix_append_left _ (isInfix_append_left _
      (isInfix_append_left _ (isInfix_append_left _ (isInfix_append_left _
      (isInfix_append_left _ (isInfix_append_left _ (isInfix_append_left _
      (isInfix_append_left _ (isInfix_append_left _ (isInfix_append_left _
      (isInfix_append_left _ (isInfix_append_left _ (isInfix_self_append _ _))))))))))))))
  · exact isInfix_append_left _ (isInfix_append_left _ (isInfix_append_left _
      (isInfix_append_left _ (isInfix_append_left _ (isInfix_append_left _
      (isInfix_append_left _ (isInfix_append_left _ (isInfix_append_left _
      (isInfix_append_left _ (isInfix_append_left _ (isInfix_append_left _
      (isInfix_append_left _ (isInfix_append_left _ (isInfix_append_left _
      (isInfix_append_left _ (isInfix_self_append _ _))))))))))))))))
  · refine isInfix_append_left _ (isInfix_append_left _ (isInfix_append_left _
      (isInfix_append_left _ (isInfix_append_left _ (isInfix_append_left _
      (isInfix_append_left _ (isInfix_append_left _ (isInfix_append_left _
      (isInfix_append_left _ (isInfix_append_left _ (isInfix_append_left _
      (isInfix_append_left _ (isInfix_append_left _ (isInfix_append_left _
      (isInfix_append_left _ (isInfix_append_left _ (isInfix_append_left _ ?_)))))))))))))))))
    exact ⟨[], [], by simp⟩

/-- Claim C2 counterexample: the term "a b" spans a field boundary.  The
FullTextCapable path matches it (the blob contains "a b" across
`rdo_code`/`region`, and the token query holds), while the SubstringOnly
path tests each column separately and rejects it — the backends do not
decide membership identically. -/
theorem c2_backend_mismatch_counterexample :
    search_condition true (some "a b") wit_crossfield = true ∧
    search_condition false (some "a b") wit_crossfield = false ∧
    (get_zonal_values true [wit_crossfield] { search := some "a b" } 1 25).1 ≠
      (get_zonal_values false [wit_crossfield] { search := some "a b" } 1 25).1 := by
  decide

/-- Claim C2 amended: the two search paths are not identical.  One direction
does hold: for a term without a backslash (where the two backends' LIKE
escape semantics agree), every record matched by the SubstringOnly path is
also matched by the FullTextCapable path, because each searchable column is
a substring of the blob. -/
theorem c2_substring_implies_fulltext (t : String) (r : ZonalValue)
    (hbs : '\\' ∉ t.data)
    (h : search_condition false (some t) r = true) :
    search_condition true (some t) r = true := by
  rw [search_condition] at h ⊢
  by_cases ht : truthy (some t) = true
  case neg =>
    rw [if_neg ht]
  case pos =>
    rw [if_pos ht] at h ⊢
    by_cases h0 : (normalize_token (some t)).isEmpty = true
    · rw [if_pos h0]
    · rw [if_neg h0] at h ⊢
      simp only [if_true, Bool.false_eq_true, if_false] at h ⊢
      rw [List.any_eq_true] at h
      obtain ⟨col, hcol, hmatch⟩ := h
      rw [Bool.or_eq_true]
      right
      have hbs_ns : '\\' ∉ normalize_token (some t) :=
        fun hm => hbs (mem_of_mem_stripChars hm)
      have hbs_low : '\\' ∉ lowerChars (normalize_token (some t)) :=
        backslash_not_mem_lowerChars hbs_ns
      cases col with
      | none => exact absurd hmatch (by rw [sql_ilike]; simp)
      | some s =>
        rw [sql_ilike] at hmatch ⊢
        simp only [Bool.false_eq_true, if_false, if_true] at hmatch ⊢
        rw [lowerChars_pattern] at hmatch ⊢
        rw [likeRaw_eq_likeEsc _ (by
          intro hmem
          rcases List.mem_cons.mp hmem with h1 | h2
          · exact absurd h1.symm (by decide)
          · rcases List.mem_append.mp h2 with h3 | h4
            · exact hbs_low h3
            · exact absurd (List.mem_singleton.mp h4).symm (by decide))] at hmatch
        obtain ⟨pre, suf, hblob⟩ := col_infix_blob r (some s) hcol
        rw [likeEsc_percent_iff] at hmatch ⊢
        obtain ⟨t2, ⟨u2, hu2⟩, hm2⟩ := hmatch
        refine ⟨t2 ++ lowerChars suf, ⟨lowerChars pre ++ u2, ?_⟩,
          likeEsc_append_right _ hbs_low t2 (lowerChars suf) hm2⟩
        have : lowerChars (search_blob r).data =
            lowerChars pre ++ (lowerChars (coalesceStr (some s)).data ++ lowerChars suf) := by
          rw [← hblob]
          simp [lowerChars, List.append_assoc]
        rw [this]
        have hs : lowerChars (coalesceStr (some s)).data = u2 ++ t2 := hu2.symm
        rw [hs]
        simp [List.append_assoc]

theorem c2_substring_implies_fulltext_witness :
    ('\\' ∉ "ncr".data ∧ search_condition false (some "ncr") wit_ncr = true) ∧
    search_condition true (some "ncr") wit_ncr = true :=
  ⟨⟨by decide, by decide⟩,
   c2_substring_implies_fulltext "ncr" wit_ncr (by decide) (by decide)⟩
